import Mathlib

/-!
Shallow embedding of the TriPlayer `Sysmodule` client
(`src/Application/source/sysmodule/Sysmodule.cpp`) together with proofs about
its queueing, draining, handshake, decoding and caching behaviour.

The client is modelled sequentially: the outbound write queue, the cached
playback state and the error flag live in one record `SysState`; socket
traffic is an oracle (`Exchange` list) consumed by the drain loop; callbacks
are a first-order datatype `Cb` interpreted by `runCb`, with `Except Unit`
modelling a C++ exception escaping the callback (`std::stoi` / `std::stod`
throw `std::invalid_argument` on unparsable input).
-/

namespace TriPlayer

/-- Playback status, from `Types.hpp`. -/
inductive PlaybackStatus where
  | Error
  | Playing
  | Paused
  | Stopped
deriving DecidableEq, Repr

/-- Repeat mode, from `Types.hpp`. -/
inductive RepeatMode where
  | Off
  | One
  | All
deriving DecidableEq, Repr

/-- Shuffle mode, from `Types.hpp`. -/
inductive ShuffleMode where
  | Off
  | On
deriving DecidableEq, Repr

/-- A song identifier is an `int` (`Types.hpp`). -/
abbrev SongID := Int

namespace Protocol

/-- Modelled from the spec: the fixed opcode set of the wire protocol
(`Protocol.hpp` is not under `src/`; the opcodes' numeric values are unknown,
so frames keep the symbolic command, which is faithful because the integer
encoding is injective). -/
inductive Command where
  | Version
  | Reset
  | Resume
  | Pause
  | Previous
  | Next
  | GetVolume
  | SetVolume
  | SetQueueIdx
  | QueueIdx
  | QueueSize
  | RemoveFromQueue
  | GetQueue
  | SetQueue
  | AddToSubQueue
  | RemoveFromSubQueue
  | SubQueueSize
  | GetSubQueue
  | SkipSubQueueSongs
  | GetRepeat
  | SetRepeat
  | GetShuffle
  | SetShuffle
  | GetSong
  | GetStatus
  | GetPosition
  | SetPosition
deriving DecidableEq, Repr

/-- Modelled from the spec: the compiled-in protocol version constant
(`Protocol.hpp` is not under `src/`); the spec's concrete scenario has the
server answer `1` as the matching version. -/
def Version : Int := 1

/-- Modelled from the spec: the reserved single-byte field delimiter
(`Protocol.hpp` is not under `src/`); its concrete value is irrelevant to the
proofs as long as it is not a digit or sign character. -/
def Delimiter : Char := Char.ofNat 28

end Protocol

/-! ### Numeric parsing (`std::stoi`, `std::stoul`, `std::stod`, `strtol`)

`none` models a thrown `std::invalid_argument`.  Only the decimal forms
exercised by this client are modelled (no exponents, hex or infinities);
out-of-range clamping is not modelled since the client never sends values
near the limits. -/

/-- Accumulate a decimal digit string into a natural number. -/
def digitsToNat : List Char → Nat → Nat
  | [], acc => acc
  | c :: cs, acc => digitsToNat cs (acc * 10 + (c.toNat - 48))

/-- Strip one leading sign character, returning whether it was `-`. -/
def splitSign : List Char → Bool × List Char
  | '-' :: cs => (true, cs)
  | '+' :: cs => (false, cs)
  | cs => (false, cs)

/-- `std::stoi`: skip whitespace, optional sign, then at least one digit;
throws (`none`) otherwise. -/
def cppStoi (s : String) : Option Int :=
  let cs := s.data.dropWhile Char.isWhitespace
  let p := splitSign cs
  let ds := p.2.takeWhile Char.isDigit
  if ds.isEmpty then none
  else
    let v : Int := (digitsToNat ds 0 : Nat)
    some (if p.1 then -v else v)

/-- `std::stoul`: like `cppStoi` but produces an `unsigned long`; a negative
input wraps modulo `2 ^ 64`. -/
def cppStoul (s : String) : Option Nat :=
  match cppStoi s with
  | none => none
  | some v => some ((v % (2 ^ 64 : Int)).toNat)

/-- `strtol(tok, nullptr, 10)`: never throws; yields `0` when no digits are
found. -/
def cppStrtol (s : String) : Int :=
  let cs := s.data.dropWhile Char.isWhitespace
  let p := splitSign cs
  let ds := p.2.takeWhile Char.isDigit
  let v : Int := (digitsToNat ds 0 : Nat)
  if p.1 then -v else v

/-- `std::stod` on the decimal subset this client exchanges: optional sign,
integer digits, optional fractional digits; throws (`none`) when no digit is
present.  Doubles are modelled as exact rationals. -/
def cppStod (s : String) : Option Rat :=
  let cs := s.data.dropWhile Char.isWhitespace
  let p := splitSign cs
  let ipart := p.2.takeWhile Char.isDigit
  let rest := p.2.dropWhile Char.isDigit
  let fpart := match rest with
    | '.' :: cs2 => cs2.takeWhile Char.isDigit
    | _ => []
  if ipart.isEmpty && fpart.isEmpty then none
  else
    let v : Rat := (digitsToNat ipart 0 : Rat) +
      (digitsToNat fpart 0 : Rat) / ((10 : Rat) ^ fpart.length)
    some (if p.1 then -v else v)

/-- `int` assigned into a `size_t` field (64-bit): wraps modulo `2 ^ 64`. -/
def intToSizeT (i : Int) : Nat := (i % (2 ^ 64 : Int)).toNat

/-- `std::numeric_limits<size_t>::max()` on the 64-bit target. -/
def sizeTMax : Nat := 2 ^ 64 - 1

/-! ### Tokenizing (`strtok` on the protocol delimiter) -/

/-- `strtok`-style tokenizer: tokens are the maximal nonempty runs of
non-delimiter characters, in order (empty fields are skipped, exactly as
repeated `strtok` calls do). -/
def strtokAux (d : Char) : List Char → List Char → List (List Char)
  | [], acc => if acc.isEmpty then [] else [acc.reverse]
  | c :: cs, acc =>
      if c = d then
        if acc.isEmpty then strtokAux d cs []
        else acc.reverse :: strtokAux d cs []
      else strtokAux d cs (c :: acc)

/-- All `strtok` tokens of a string for delimiter `d`. -/
def strtokAll (d : Char) (s : String) : List (List Char) :=
  strtokAux d s.data []

/-- The loop in the get-queue / get-sub-queue callbacks: tokenize the payload
on the protocol delimiter and decode every token with `strtol`. -/
def decodeIDList (s : String) : List SongID :=
  (strtokAll Protocol.Delimiter s).map (fun t => cppStrtol (String.mk t))

/-- Join tokens with the given delimiter between consecutive tokens (the
shape of a well-formed list response payload). -/
def joinDelim (d : Char) : List (List Char) → List Char
  | [] => []
  | [t] => t
  | t :: ts => t ++ d :: joinDelim d ts

end TriPlayer

namespace TriPlayer

/-! ### Client state (`Sysmodule`'s data members) -/

/-- One encoded request frame: the opcode plus its positional string
arguments (joined with the delimiter on the wire). -/
structure Frame where
  cmd : Protocol.Command
  args : List String
deriving DecidableEq, Repr

/-- The completion callbacks, one constructor per lambda passed to
`addToWriteQueue` in the source, carrying exactly the values the lambda
captures besides `this`. -/
inductive Cb where
  | waitDone
  | waitQueueIdx
  | resume
  | pause
  | previous
  | next
  | getVolume
  | setVolume
  | setSongIdx
  | getSongIdx
  | getQueueSize
  | removeFromQueue (pos : Nat)
  | getQueue
  | setQueue (size : Nat)
  | addToSubQueue (id : SongID)
  | removeFromSubQueue (pos : Nat)
  | getSubQueueSize
  | getSubQueue
  | skipSubQueueSongs (n : Nat)
  | getRepeat
  | setRepeat (m : RepeatMode)
  | getShuffle
  | setShuffle (m : ShuffleMode)
  | getSong
  | getStatus
  | getPosition
  | setPosition
deriving DecidableEq, Repr

/-- A pending request: the encoded frame and its completion callback. -/
structure Entry where
  frame : Frame
  cb : Cb
deriving DecidableEq, Repr

/-- The data members of `Sysmodule` (sockets, mutexes and timestamps are not
value state and are not modelled; `queue_`/`subQueue_` are the cached
sequences, `writeQueue` the outbound FIFO). -/
structure SysState where
  currentSong_ : SongID
  position_ : Rat
  volume_ : Rat
  queueChanged_ : Bool
  queueSize_ : Nat
  repeatMode_ : RepeatMode
  shuffleMode_ : ShuffleMode
  songIdx_ : Nat
  subQueueChanged_ : Bool
  subQueueSize_ : Nat
  status_ : PlaybackStatus
  queue_ : List SongID
  subQueue_ : List SongID
  error_ : Bool
  exit_ : Bool
  writeQueue : List Entry
deriving DecidableEq, Repr

/-- `Sysmodule::addToWriteQueue`: silently dropped when the error flag is
set, otherwise appended at the tail of the outbound queue. -/
def addToWriteQueue (st : SysState) (fr : Frame) (f : Cb) : SysState :=
  if st.error_ then st
  else { st with writeQueue := st.writeQueue ++ [⟨fr, f⟩] }

/-! ### Typed request builders (enqueue-time effect of each `send*`) -/

/-- `Sysmodule::sendResume`. -/
def sendResume (st : SysState) : SysState :=
  addToWriteQueue st ⟨.Resume, []⟩ .resume

/-- `Sysmodule::sendPause`. -/
def sendPause (st : SysState) : SysState :=
  addToWriteQueue st ⟨.Pause, []⟩ .pause

/-- `Sysmodule::sendPrevious`. -/
def sendPrevious (st : SysState) : SysState :=
  addToWriteQueue st ⟨.Previous, []⟩ .previous

/-- `Sysmodule::sendNext`. -/
def sendNext (st : SysState) : SysState :=
  addToWriteQueue st ⟨.Next, []⟩ .next

/-- `Sysmodule::sendGetVolume`. -/
def sendGetVolume (st : SysState) : SysState :=
  addToWriteQueue st ⟨.GetVolume, []⟩ .getVolume

/-- `Sysmodule::sendSetVolume`. -/
def sendSetVolume (v : Rat) (st : SysState) : SysState :=
  addToWriteQueue st ⟨.SetVolume, [toString v]⟩ .setVolume

/-- `Sysmodule::sendSetSongIdx`. -/
def sendSetSongIdx (id : Nat) (st : SysState) : SysState :=
  addToWriteQueue st ⟨.SetQueueIdx, [toString id]⟩ .setSongIdx

/-- `Sysmodule::sendGetSongIdx`. -/
def sendGetSongIdx (st : SysState) : SysState :=
  addToWriteQueue st ⟨.QueueIdx, []⟩ .getSongIdx

/-- `Sysmodule::sendGetQueueSize`. -/
def sendGetQueueSize (st : SysState) : SysState :=
  addToWriteQueue st ⟨.QueueSize, []⟩ .getQueueSize

/-- `Sysmodule::sendRemoveFromQueue`. -/
def sendRemoveFromQueue (pos : Nat) (st : SysState) : SysState :=
  addToWriteQueue st ⟨.RemoveFromQueue, [toString pos]⟩ (.removeFromQueue pos)

/-- `Sysmodule::sendGetQueue`. -/
def sendGetQueue (s e : Nat) (st : SysState) : SysState :=
  addToWriteQueue st ⟨.GetQueue, [toString s, toString e]⟩ .getQueue

/-- `Sysmodule::sendSetQueue` (the frame carries the whole queue; the
callback captures its size). -/
def sendSetQueue (q : List SongID) (st : SysState) : SysState :=
  addToWriteQueue st ⟨.SetQueue, q.map toString⟩ (.setQueue q.length)

/-- `Sysmodule::sendAddToSubQueue`. -/
def sendAddToSubQueue (id : SongID) (st : SysState) : SysState :=
  addToWriteQueue st ⟨.AddToSubQueue, [toString id]⟩ (.addToSubQueue id)

/-- `Sysmodule::sendRemoveFromSubQueue`. -/
def sendRemoveFromSubQueue (pos : Nat) (st : SysState) : SysState :=
  addToWriteQueue st ⟨.RemoveFromSubQueue, [toString pos]⟩ (.removeFromSubQueue pos)

/-- `Sysmodule::sendGetSubQueueSize`. -/
def sendGetSubQueueSize (st : SysState) : SysState :=
  addToWriteQueue st ⟨.SubQueueSize, []⟩ .getSubQueueSize

/-- `Sysmodule::sendGetSubQueue`. -/
def sendGetSubQueue (s e : Nat) (st : SysState) : SysState :=
  addToWriteQueue st ⟨.GetSubQueue, [toString s, toString e]⟩ .getSubQueue

/-- `Sysmodule::sendSkipSubQueueSongs`. -/
def sendSkipSubQueueSongs (n : Nat) (st : SysState) : SysState :=
  addToWriteQueue st ⟨.SkipSubQueueSongs, [toString n]⟩ (.skipSubQueueSongs n)

/-- `Sysmodule::sendGetRepeat`. -/
def sendGetRepeat (st : SysState) : SysState :=
  addToWriteQueue st ⟨.GetRepeat, []⟩ .getRepeat

/-- `(int)m` for a `RepeatMode` (the enum has the default underlying values
0, 1, 2 in `Types.hpp`). -/
def RepeatMode.code : RepeatMode → Int
  | .Off => 0
  | .One => 1
  | .All => 2

/-- `(int)m` for a `ShuffleMode` (default underlying values 0, 1). -/
def ShuffleMode.code : ShuffleMode → Int
  | .Off => 0
  | .On => 1

/-- `Sysmodule::sendSetRepeat`. -/
def sendSetRepeat (m : RepeatMode) (st : SysState) : SysState :=
  addToWriteQueue st ⟨.SetRepeat, [toString m.code]⟩ (.setRepeat m)

/-- `Sysmodule::sendGetShuffle`. -/
def sendGetShuffle (st : SysState) : SysState :=
  addToWriteQueue st ⟨.GetShuffle, []⟩ .getShuffle

/-- `Sysmodule::sendSetShuffle`. -/
def sendSetShuffle (m : ShuffleMode) (st : SysState) : SysState :=
  addToWriteQueue st ⟨.SetShuffle, [toString m.code]⟩ (.setShuffle m)

/-- `Sysmodule::sendGetSong`. -/
def sendGetSong (st : SysState) : SysState :=
  addToWriteQueue st ⟨.GetSong, []⟩ .getSong

/-- `Sysmodule::sendGetStatus`. -/
def sendGetStatus (st : SysState) : SysState :=
  addToWriteQueue st ⟨.GetStatus, []⟩ .getStatus

/-- `Sysmodule::sendGetPosition`. -/
def sendGetPosition (st : SysState) : SysState :=
  addToWriteQueue st ⟨.GetPosition, []⟩ .getPosition

/-- `Sysmodule::sendSetPosition`: note the source assigns
`this->position_ = pos` on the calling thread before enqueueing. -/
def sendSetPosition (pos : Rat) (st : SysState) : SysState :=
  addToWriteQueue { st with position_ := pos } ⟨.SetPosition, [toString pos]⟩ .setPosition

/-! ### Read accessors -/

/-- `Sysmodule::queueChanged`: reads and clears the dirty flag. -/
def queueChanged (st : SysState) : Bool × SysState :=
  if st.queueChanged_ then (true, { st with queueChanged_ := false })
  else (false, st)

/-- `Sysmodule::subQueueChanged`: reads and clears the dirty flag. -/
def subQueueChanged (st : SysState) : Bool × SysState :=
  if st.subQueueChanged_ then (true, { st with subQueueChanged_ := false })
  else (false, st)

end TriPlayer

namespace TriPlayer

/-! ### Callback interpretation -/

/-- Modelled from the spec: the cases of `Protocol::Repeat` (the header with
their numeric values is not under `src/`; the default consecutive underlying
values are assumed). `none` means no `switch` case matches. -/
def decodeRepeat (v : Int) : Option RepeatMode :=
  if v = 0 then some .Off
  else if v = 1 then some .One
  else if v = 2 then some .All
  else none

/-- Modelled from the spec: the cases of `Protocol::Status` (the header with
their numeric values is not under `src/`; the default consecutive underlying
values are assumed). `none` means no `switch` case matches. -/
def decodeStatus (v : Int) : Option PlaybackStatus :=
  if v = 0 then some .Error
  else if v = 1 then some .Playing
  else if v = 2 then some .Paused
  else if v = 3 then some .Stopped
  else none

/-- Run one completion callback on the raw response payload.  `.error ()`
models a C++ exception (`std::invalid_argument` from `std::stoi` /
`std::stoul` / `std::stod`) escaping the lambda; every throwing conversion
in the source happens before any state is mutated. -/
def runCb : Cb → String → SysState → Except Unit SysState
  | .waitDone, _, st =>
      -- `waitReset`'s lambda only flips the caller's local `done` latch
      .ok st
  | .waitQueueIdx, s, st =>
      match cppStoi s with
      | none => .error ()
      | some v => .ok { st with songIdx_ := intToSizeT v }
  | .resume, s, st =>
      match cppStoi s with
      | none => .error ()
      | some v => .ok { st with currentSong_ := v }
  | .pause, s, st =>
      match cppStoi s with
      | none => .error ()
      | some v => .ok { st with currentSong_ := v }
  | .previous, s, st =>
      match cppStoi s with
      | none => .error ()
      | some v => .ok { st with currentSong_ := v }
  | .next, s, st =>
      match cppStoi s with
      | none => .error ()
      | some v => .ok { st with currentSong_ := v }
  | .getVolume, s, st =>
      match cppStod s with
      | none => .error ()
      | some v => .ok { st with volume_ := v }
  | .setVolume, s, st =>
      match cppStod s with
      | none => .error ()
      | some v => .ok { st with volume_ := v }
  | .setSongIdx, s, st =>
      match cppStoi s with
      | none => .error ()
      | some v => .ok { st with songIdx_ := intToSizeT v }
  | .getSongIdx, s, st =>
      match cppStoul s with
      | none => .error ()
      | some tmp =>
          -- re-fetch both queues before the scalar update when the index moved
          let st1 := if st.songIdx_ ≠ tmp
            then sendGetSubQueue 0 5000 (sendGetQueue 0 25000 st) else st
          .ok { st1 with songIdx_ := tmp }
  | .getQueueSize, s, st =>
      match cppStoul s with
      | none => .error ()
      | some tmp =>
          let st1 := if st.queueSize_ ≠ tmp then sendGetQueue 0 25000 st else st
          .ok { st1 with queueSize_ := tmp }
  | .removeFromQueue _, s, st =>
      match cppStoul s with
      | none => .error ()
      | some _ => .ok st      -- a mismatch with `pos` has an empty error branch
  | .getQueue, s, st =>
      .ok { st with queue_ := decodeIDList s, queueChanged_ := true }
  | .setQueue _, s, st =>
      match cppStoul s with
      | none => .error ()
      | some _ => .ok st      -- a mismatch with `size` has an empty error branch
  | .addToSubQueue _, s, st =>
      match cppStoi s with
      | none => .error ()
      | some _ => .ok st      -- a mismatch with `id` has an empty error branch
  | .removeFromSubQueue _, s, st =>
      match cppStoul s with
      | none => .error ()
      | some _ => .ok st      -- a mismatch with `pos` has an empty error branch
  | .getSubQueueSize, s, st =>
      match cppStoul s with
      | none => .error ()
      | some tmp =>
          let st1 := if st.subQueueSize_ ≠ tmp then sendGetSubQueue 0 5000 st else st
          .ok { st1 with subQueueSize_ := tmp }
  | .getSubQueue, s, st =>
      .ok { st with subQueue_ := decodeIDList s, subQueueChanged_ := true }
  | .skipSubQueueSongs _, s, st =>
      match cppStoul s with
      | none => .error ()
      | some _ => .ok st      -- a mismatch with `n` has an empty error branch
  | .getRepeat, s, st =>
      match cppStoi s with
      | none => .error ()
      | some v => .ok { st with repeatMode_ := (decodeRepeat v).getD .Off }
  | .setRepeat m, s, st =>
      match cppStoi s with
      | none => .error ()
      | some v =>
          match decodeRepeat v with
          | some rm => if rm = m then .ok { st with repeatMode_ := rm } else .ok st
          | none => .ok st    -- no case matches: `rm` stays indeterminate, no defined update
  | .getShuffle, s, st =>
      match cppStoi s with
      | none => .error ()
      | some v => .ok { st with shuffleMode_ := if v = 0 then .Off else .On }
  | .setShuffle _, s, st =>
      match cppStoi s with
      | none => .error ()
      | some v =>
          -- a mismatch with `m` only logs; the re-fetch and the update run regardless
          .ok { sendGetQueue 0 25000 st with
                  shuffleMode_ := if v = 0 then ShuffleMode.Off else ShuffleMode.On }
  | .getSong, s, st =>
      match cppStoi s with
      | none => .error ()
      | some v => .ok { st with currentSong_ := v }
  | .getStatus, s, st =>
      match cppStoi s with
      | none => .error ()
      | some v => .ok { st with status_ := (decodeStatus v).getD .Error }
  | .getPosition, s, st =>
      match cppStod s with
      | none => .error ()
      | some v => .ok { st with position_ := v }
  | .setPosition, s, st =>
      match cppStod s with
      | none => .error ()
      | some v => .ok { st with position_ := v }

/-- Whether a callback completes without throwing on payload `s` (throwing
depends only on the payload, never on the state). -/
def cbOk : Cb → String → Bool
  | .waitDone, _ => true
  | .getQueue, _ => true
  | .getSubQueue, _ => true
  | .getVolume, s => (cppStod s).isSome
  | .setVolume, s => (cppStod s).isSome
  | .getPosition, s => (cppStod s).isSome
  | .setPosition, s => (cppStod s).isSome
  | .getSongIdx, s => (cppStoul s).isSome
  | .getQueueSize, s => (cppStoul s).isSome
  | .removeFromQueue _, s => (cppStoul s).isSome
  | .setQueue _, s => (cppStoul s).isSome
  | .removeFromSubQueue _, s => (cppStoul s).isSome
  | .getSubQueueSize, s => (cppStoul s).isSome
  | .skipSubQueueSongs _, s => (cppStoul s).isSome
  | _, s => (cppStoi s).isSome

/-! ### The processing loop (`Sysmodule::process`) -/

/-- One request/response exchange as the transport sees it:
`writeOk` is `Utils::Socket::writeToSocket`'s result, `resp` is what
`Utils::Socket::readFromSocket` returns (`""` on timeout / closed). -/
structure Exchange where
  writeOk : Bool
  resp : String
deriving DecidableEq, Repr

/-- Outcome of draining the queue: `done` for a normal exit of the inner
`while` (including the error-clears-queue exits), `thrown` for a C++
exception escaping a callback, `stuck` when the fuel or the oracle ran out
(not a program behaviour). -/
inductive DrainOut where
  | done (st : SysState) (fired : List Entry) (rest : List Exchange)
  | thrown (st : SysState) (fired : List Entry)
  | stuck
deriving DecidableEq, Repr

/-- The inner `while (!this->writeQueue.empty())` of `Sysmodule::process`:
write the front frame, read the response, on transport failure set the error
flag and clear the whole queue, otherwise run the callback (queue lock
released), pop the front entry, and continue.  `fired` records the callbacks
invoked, in order. -/
def drainLoop : Nat → List Exchange → SysState → List Entry → DrainOut
  | 0, _, _, _ => .stuck
  | fuel + 1, oracle, st, fired =>
    match st.writeQueue with
    | [] => .done st fired oracle
    | e :: _ =>
      match oracle with
      | [] => .stuck
      | x :: oracle' =>
        if x.writeOk = false then
          -- write failed: error flag set, then the error check clears the queue
          .done { st with error_ := true, writeQueue := [] } fired oracle'
        else if x.resp.length = 0 then
          -- empty read (timeout/closed): same handling
          .done { st with error_ := true, writeQueue := [] } fired oracle'
        else
          match runCb e.cb x.resp st with
          | .error _ => .thrown st fired
          | .ok st1 =>
            -- `pop()` removes the front entry after the callback returned,
            -- then the error check would clear the queue (callbacks never
            -- set the flag, and the clear makes the pop's effect moot)
            if st1.error_ then
              .done { st1 with writeQueue := [] } (fired ++ [e]) oracle'
            else
              drainLoop fuel oracle' { st1 with writeQueue := st1.writeQueue.tail }
                (fired ++ [e])

/-- The periodic refresh battery enqueued when `UPDATE_DELAY` elapsed, in
source order. -/
def refreshBattery (st : SysState) : SysState :=
  sendGetVolume (sendGetStatus (sendGetSubQueueSize (sendGetSongIdx
    (sendGetSong (sendGetShuffle (sendGetRepeat (sendGetQueueSize
      (sendGetPosition st))))))))

/-- Outcome of one iteration of the outer `while (!this->exit_)` loop. -/
inductive IterOut where
  | slept (st : SysState)
  | ran (st : SysState) (fired : List Entry) (rest : List Exchange)
  | thrown (st : SysState) (fired : List Entry)
  | stuck
deriving DecidableEq, Repr

/-- One iteration of `Sysmodule::process`: with the error flag set the loop
only sleeps (no socket I/O, `rest = oracle` untouched); otherwise it drains
the queue and, when the update delay elapsed (`updateDue`), enqueues the
refresh battery (whose `addToWriteQueue` calls are dropped if an error was
just latched). -/
def processIter (fuel : Nat) (oracle : List Exchange) (updateDue : Bool)
    (st : SysState) : IterOut :=
  if st.error_ then .slept st
  else
    match drainLoop fuel oracle st [] with
    | .done st1 fired rest =>
        .ran (if updateDue then refreshBattery st1 else st1) fired rest
    | .thrown st1 fired => .thrown st1 fired
    | .stuck => .stuck

/-! ### Connection lifecycle -/

/-- What the transport answers during `Sysmodule::reconnect`'s handshake:
the payload read back after writing the `Version` query. -/
structure Handshake where
  versionResp : String
deriving DecidableEq, Repr

/-- `Sysmodule::reconnect` (socket close/create/timeout calls have no value
state and are not modelled).  `std::stoi` on a nonempty non-numeric version
reply throws, modelled as `.error ()`. -/
def reconnect (hs : Handshake) (st : SysState) : Except Unit SysState :=
  if hs.versionResp.length > 0 then
    match cppStoi hs.versionResp with
    | none => .error ()
    | some ver =>
        if ver ≠ Protocol.Version then .ok { st with error_ := true }
        else .ok { st with error_ := false }
  else .ok { st with error_ := true }

/-- The assignments in the body of `Sysmodule::Sysmodule`: `pre` holds the
indeterminate values of the scalar data members before the body runs (C++
default-initializes scalar members to indeterminate values, while the
`std::vector`/`std::queue` members start empty).  Note the body assigns no
value to `subQueueSize_`. -/
def ctorInit (pre : SysState) : SysState :=
  { pre with
    currentSong_ := -1,
    error_ := true,
    exit_ := false,
    position_ := 0,
    queueChanged_ := false,
    queueSize_ := 0,
    repeatMode_ := .Off,
    shuffleMode_ := .Off,
    songIdx_ := 0,
    subQueueChanged_ := false,
    status_ := .Stopped,
    volume_ := 100,
    queue_ := [],
    subQueue_ := [],
    writeQueue := [] }

/-- `Sysmodule::Sysmodule`: assign the fields, run `reconnect`, then enqueue
the two initial full-queue fetches. -/
def sysmoduleCtor (pre : SysState) (hs : Handshake) : Except Unit SysState :=
  match reconnect hs (ctorInit pre) with
  | .error e => .error e
  | .ok st1 => .ok (sendGetSubQueue 0 5000 (sendGetQueue 0 25000 st1))

/-! ### Blocking wait helpers -/

/-- The polling loop of `Sysmodule::waitReset`: `while (!done) sleep(5ms);`.
`done i` is the value of the completion latch observed at poll `i`; the loop
consults nothing else (in particular not the error flag).  Returns the poll
index at which it saw the latch set, `none` if that never happens within
`fuel` polls. -/
def waitResetLoop (done : Nat → Bool) : Nat → Nat → Option Nat
  | 0, _ => none
  | fuel + 1, i => if done i then some i else waitResetLoop done fuel (i + 1)

/-- The polling loop of `Sysmodule::waitSongIdx`: exits with the current
`songIdx_` when the latch is set, and returns the `size_t` maximum sentinel
when it observes the error flag after a sleep. -/
def waitSongIdxLoop (done err : Nat → Bool) (idxAt : Nat → Nat) :
    Nat → Nat → Option Nat
  | 0, _ => none
  | fuel + 1, i =>
      if done i then some (idxAt i)
      else if err i then some sizeTMax
      else waitSongIdxLoop done err idxAt fuel (i + 1)

/-- Per-poll exit condition of `waitReset`: the source's `while (!done)`
exits exactly when `done` holds; the error flag (second argument) is not
consulted at all. -/
def waitResetExits (done : Bool) (_err : Bool) : Bool := done

/-- Per-poll exit condition of `waitSongIdx`: the loop stops waiting when the
latch is set or the error flag is observed. -/
def waitSongIdxExits (done err : Bool) : Bool := done || err

/-! ### The cached playback state as the consumer sees it -/

/-- The cached playback-state fields (current song, position, volume,
status, repeat/shuffle mode, sizes, index, both queues). -/
structure CacheView where
  currentSong : SongID
  position : Rat
  volume : Rat
  status : PlaybackStatus
  repeatMode : RepeatMode
  shuffleMode : ShuffleMode
  songIdx : Nat
  queueSize : Nat
  subQueueSize : Nat
  queue : List SongID
  subQueue : List SongID
deriving DecidableEq, Repr

/-- Project the cached playback state out of the full client state. -/
def cacheView (st : SysState) : CacheView :=
  ⟨st.currentSong_, st.position_, st.volume_, st.status_, st.repeatMode_,
   st.shuffleMode_, st.songIdx_, st.queueSize_, st.subQueueSize_,
   st.queue_, st.subQueue_⟩

/-- A concrete healthy client state (the constructor defaults with the error
flag cleared), used to instantiate theorems. -/
def testState : SysState :=
  { currentSong_ := -1, position_ := 0, volume_ := 100,
    queueChanged_ := false, queueSize_ := 0, repeatMode_ := .Off,
    shuffleMode_ := .Off, songIdx_ := 0, subQueueChanged_ := false,
    subQueueSize_ := 0, status_ := .Stopped, queue_ := [], subQueue_ := [],
    error_ := false, exit_ := false, writeQueue := [] }

/-- The entry `sendGetQueue(0, 25000)` appends. -/
def getQueueEntry : Entry := ⟨⟨.GetQueue, ["0", "25000"]⟩, .getQueue⟩

/-- The entry `sendGetSubQueue(0, 5000)` appends. -/
def getSubQueueEntry : Entry := ⟨⟨.GetSubQueue, ["0", "5000"]⟩, .getSubQueue⟩

end TriPlayer

namespace TriPlayer

/-! ### Lemmas: enqueueing and callbacks -/

/-- Enqueueing never touches the error flag. -/
theorem addToWriteQueue_error (st : SysState) (fr : Frame) (f : Cb) :
    (addToWriteQueue st fr f).error_ = st.error_ := by
  unfold addToWriteQueue; split <;> rfl

/-- Enqueueing only ever appends at the tail of the outbound queue. -/
theorem addToWriteQueue_ext (st : SysState) (fr : Frame) (f : Cb) :
    ∃ ext, (addToWriteQueue st fr f).writeQueue = st.writeQueue ++ ext := by
  unfold addToWriteQueue; split
  · exact ⟨[], by simp⟩
  · exact ⟨[⟨fr, f⟩], rfl⟩

/-- Enqueueing never touches the cached playback state. -/
theorem addToWriteQueue_cache (st : SysState) (fr : Frame) (f : Cb) :
    cacheView (addToWriteQueue st fr f) = cacheView st := by
  unfold addToWriteQueue; split <;> rfl

/-- `sendGetQueue` appends at most one entry and keeps the error flag. -/
theorem sendGetQueue_ext (a b : Nat) (st : SysState) :
    (∃ ext, (sendGetQueue a b st).writeQueue = st.writeQueue ++ ext) ∧
      (sendGetQueue a b st).error_ = st.error_ :=
  ⟨addToWriteQueue_ext st _ _, addToWriteQueue_error st _ _⟩

/-- `sendGetSubQueue` appends at most one entry and keeps the error flag. -/
theorem sendGetSubQueue_ext (a b : Nat) (st : SysState) :
    (∃ ext, (sendGetSubQueue a b st).writeQueue = st.writeQueue ++ ext) ∧
      (sendGetSubQueue a b st).error_ = st.error_ :=
  ⟨addToWriteQueue_ext st _ _, addToWriteQueue_error st _ _⟩

/-- The queue/sub-queue re-fetch pair issued by the `getSongIdx` callback
appends at the tail and keeps the error flag. -/
theorem send_pair_ext (st : SysState) :
    (∃ ext, (sendGetSubQueue 0 5000 (sendGetQueue 0 25000 st)).writeQueue
        = st.writeQueue ++ ext) ∧
      (sendGetSubQueue 0 5000 (sendGetQueue 0 25000 st)).error_ = st.error_ := by
  obtain ⟨⟨x1, h1⟩, e1⟩ := sendGetQueue_ext 0 25000 st
  obtain ⟨⟨x2, h2⟩, e2⟩ := sendGetSubQueue_ext 0 5000 (sendGetQueue 0 25000 st)
  exact ⟨⟨x1 ++ x2, by rw [h2, h1, List.append_assoc]⟩, by rw [e2, e1]⟩

/-- A callback only ever appends to the outbound queue and never changes the
error flag. -/
theorem runCb_ext (c : Cb) (s : String) (st st1 : SysState)
    (h : runCb c s st = .ok st1) :
    (∃ ext, st1.writeQueue = st.writeQueue ++ ext) ∧ st1.error_ = st.error_ := by
  cases c <;> simp only [runCb] at h <;>
    (try split at h) <;> (try split at h) <;> (try split at h) <;>
    (try simp at h) <;> (try subst h) <;>
    first
      | exact ⟨⟨[], by simp⟩, rfl⟩
      | exact ⟨(send_pair_ext st).1, (send_pair_ext st).2⟩
      | exact ⟨(sendGetQueue_ext 0 25000 st).1, (sendGetQueue_ext 0 25000 st).2⟩
      | exact ⟨(sendGetSubQueue_ext 0 5000 st).1, (sendGetSubQueue_ext 0 5000 st).2⟩

/-- A string has length zero exactly when it is the empty string. -/
theorem string_len_zero (s : String) : s.length = 0 ↔ s = "" := by
  constructor
  · intro h
    cases s with
    | mk data =>
      cases data with
      | nil => rfl
      | cons c cs => simp [String.length] at h
  · intro h
    subst h
    rfl

/-- Callbacks that pass `cbOk` run to completion (no exception). -/
theorem runCb_total (c : Cb) (s : String) (st : SysState) (h : cbOk c s = true) :
    ∃ st1, runCb c s st = .ok st1 := by
  cases c <;> simp only [runCb, cbOk] at h ⊢ <;>
    first
      | exact ⟨_, rfl⟩
      | (obtain ⟨v, hv⟩ := Option.isSome_iff_exists.mp h
         rw [hv]
         first
           | exact ⟨_, rfl⟩
           | (rcases hd : decodeRepeat v with _ | rm <;>
              simp only [hd, ← apply_ite Except.ok] <;>
              exact ⟨_, rfl⟩))

end TriPlayer

namespace TriPlayer

/-! ### Lemmas: the drain loop -/

/-- A drain that finishes with the error flag clear fired the callbacks of
every entry queued at the start, first and in their queue order (the strict
FIFO property; anything fired afterwards are follow-up entries enqueued by
callbacks). -/
theorem drain_fifo_aux :
    ∀ (fuel : Nat) (oracle : List Exchange) (st : SysState) (acc : List Entry)
      (st1 : SysState) (fired : List Entry) (rest : List Exchange),
      drainLoop fuel oracle st acc = .done st1 fired rest →
      st1.error_ = false →
      ∃ t2, fired = acc ++ st.writeQueue ++ t2 := by
  intro fuel
  induction fuel with
  | zero =>
      intro oracle st acc st1 fired rest h _
      simp [drainLoop] at h
  | succ f ih =>
      intro oracle st acc st1 fired rest h hok
      rw [drainLoop] at h
      cases hqe : st.writeQueue with
      | nil =>
          rw [hqe] at h
          injection h with h1 h2 h3
          subst h2
          exact ⟨[], by simp [hqe]⟩
      | cons e q =>
          rw [hqe] at h
          simp only [] at h
          cases oracle with
          | nil => simp at h
          | cons x orr =>
              simp only [] at h
              by_cases hw : x.writeOk = false
              · rw [if_pos hw] at h
                injection h with h1 h2 h3
                subst h1
                simp at hok
              · rw [if_neg hw] at h
                by_cases hr : x.resp.length = 0
                · rw [if_pos hr] at h
                  injection h with h1 h2 h3
                  subst h1
                  simp at hok
                · rw [if_neg hr] at h
                  cases hrc : runCb e.cb x.resp st with
                  | error u => rw [hrc] at h; simp at h
                  | ok stc =>
                      rw [hrc] at h
                      simp only [] at h
                      obtain ⟨⟨ext, hext⟩, herr1⟩ := runCb_ext e.cb x.resp st stc hrc
                      by_cases he2 : stc.error_ = true
                      · rw [if_pos he2] at h
                        injection h with h1 h2 h3
                        subst h1
                        simp [he2] at hok
                      · rw [if_neg he2] at h
                        obtain ⟨t1, ht1⟩ :=
                          ih orr { stc with writeQueue := stc.writeQueue.tail }
                            (acc ++ [e]) st1 fired rest h hok
                        refine ⟨ext ++ t1, ?_⟩
                        rw [ht1]
                        simp [hext, hqe]

end TriPlayer

namespace TriPlayer

/-- After a run of successful exchanges, a transport failure (failed write or
empty read) at the front of the remaining queue makes the drain stop with
the error flag set, an empty outbound queue, and exactly the callbacks of
the successful prefix fired — nothing queued behind the failing entry ever
runs. -/
theorem drain_fail_aux (q1 : List Entry) (or1 : List Exchange)
    (hgood : List.Forall₂ (fun (en : Entry) (x : Exchange) =>
        x.writeOk = true ∧ x.resp ≠ "" ∧ cbOk en.cb x.resp = true) q1 or1) :
    ∀ (fuel : Nat) (st : SysState) (tl : List Entry) (acc : List Entry)
      (x : Exchange) (or2 : List Exchange),
      st.writeQueue = q1 ++ tl → tl ≠ [] → st.error_ = false →
      q1.length < fuel → (x.writeOk = false ∨ x.resp = "") →
      ∃ st1, drainLoop fuel (or1 ++ x :: or2) st acc = .done st1 (acc ++ q1) or2 ∧
        st1.error_ = true ∧ st1.writeQueue = [] := by
  induction hgood with
  | nil =>
      intro fuel st tl acc x or2 hq htl herr hfuel hfail
      cases fuel with
      | zero => simp at hfuel
      | succ f =>
          cases tl with
          | nil => exact absurd rfl htl
          | cons e rest =>
              simp only [List.nil_append] at hq ⊢
              refine ⟨{ st with error_ := true, writeQueue := [] }, ?_, rfl, rfl⟩
              rw [drainLoop, hq]
              simp only []
              cases hfail with
              | inl hwf => simp [hwf]
              | inr hrf =>
                  cases hxw : x.writeOk with
                  | false => simp
                  | true => simp [hrf]
  | @cons e x1 q1' or1' he hrest ih =>
      intro fuel st tl acc x or2 hq htl herr hfuel hfail
      cases fuel with
      | zero => simp at hfuel
      | succ f =>
          obtain ⟨hw, hr, hcb⟩ := he
          obtain ⟨stc, hok⟩ := runCb_total e.cb x1.resp st hcb
          obtain ⟨⟨ext, hext⟩, herr1⟩ := runCb_ext e.cb x1.resp st stc hok
          have hq' : st.writeQueue = e :: (q1' ++ tl) := by rw [hq]; rfl
          have herrc : stc.error_ = false := by rw [herr1, herr]
          have hstep : drainLoop (f + 1) ((x1 :: or1') ++ x :: or2) st acc
              = drainLoop f (or1' ++ x :: or2)
                  { stc with writeQueue := stc.writeQueue.tail } (acc ++ [e]) := by
            rw [drainLoop, hq']
            simp only [List.cons_append]
            rw [if_neg (by simp [hw])]
            rw [if_neg (by rw [string_len_zero]; exact hr)]
            rw [hok]
            simp only []
            rw [if_neg (by simp [herrc])]
          have hq2 : ({ stc with writeQueue := stc.writeQueue.tail }).writeQueue
              = q1' ++ (tl ++ ext) := by
            simp [hext, hq', List.append_assoc]
          have htl2 : tl ++ ext ≠ [] := by
            intro hc
            rw [List.append_eq_nil] at hc
            exact htl hc.1
          have hfuel2 : q1'.length < f := by
            simp only [List.length_cons] at hfuel
            omega
          obtain ⟨st1, hdrain, he1, hw1⟩ :=
            ih f { stc with writeQueue := stc.writeQueue.tail } (tl ++ ext)
              (acc ++ [e]) x or2 hq2 htl2 (by simp [herrc]) hfuel2 hfail
          refine ⟨st1, ?_, he1, hw1⟩
          rw [hstep, hdrain]
          simp

end TriPlayer

namespace TriPlayer

/-! ### Lemmas: the `strtok` tokenizer -/

/-- Consuming a delimiter-free token just accumulates it. -/
theorem strtokAux_token (d : Char) (t : List Char) (hd : ∀ c ∈ t, c ≠ d) :
    ∀ (cs acc : List Char),
      strtokAux d (t ++ cs) acc = strtokAux d cs (t.reverse ++ acc) := by
  induction t with
  | nil => intro cs acc; simp
  | cons c t' ih =>
      intro cs acc
      have hc : c ≠ d := hd c (by simp)
      simp only [List.cons_append, strtokAux, if_neg hc, List.append_eq]
      rw [ih (fun c2 hm => hd c2 (by simp [hm])) cs (c :: acc)]
      simp

/-- Hitting the delimiter with a nonempty accumulator emits the token. -/
theorem strtokAux_delim (d : Char) (cs acc : List Char) (h : acc ≠ []) :
    strtokAux d (d :: cs) acc = acc.reverse :: strtokAux d cs [] := by
  have he : acc.isEmpty = false := by
    cases acc with
    | nil => exact absurd rfl h
    | cons a l => rfl
  simp [strtokAux, he]

/-- End of input with a nonempty accumulator emits the final token. -/
theorem strtokAux_end (d : Char) (acc : List Char) (h : acc ≠ []) :
    strtokAux d [] acc = [acc.reverse] := by
  have he : acc.isEmpty = false := by
    cases acc with
    | nil => exact absurd rfl h
    | cons a l => rfl
  simp [strtokAux, he]

/-- Tokenizing a delimiter-joined list of nonempty, delimiter-free tokens
recovers exactly those tokens, in order. -/
theorem strtok_join (d : Char) :
    ∀ (toks : List (List Char)), toks ≠ [] →
      (∀ t ∈ toks, t ≠ [] ∧ d ∉ t) →
      strtokAux d (joinDelim d toks) [] = toks := by
  intro toks
  induction toks with
  | nil => intro h _; exact absurd rfl h
  | cons t ts ih =>
      intro _ hts
      obtain ⟨hne, hnd⟩ := hts t (by simp)
      have hfree : ∀ c ∈ t, c ≠ d := fun c hc hEq => hnd (hEq ▸ hc)
      cases ts with
      | nil =>
          rw [show joinDelim d [t] = t ++ [] by simp [joinDelim]]
          rw [strtokAux_token d t hfree [] []]
          rw [strtokAux_end d _ (by simp [hne])]
          simp
      | cons t2 ts2 =>
          rw [show joinDelim d (t :: t2 :: ts2) = t ++ d :: joinDelim d (t2 :: ts2)
              from rfl]
          rw [strtokAux_token d t hfree _ []]
          rw [strtokAux_delim d _ _ (by simp [hne])]
          rw [ih (by simp) (fun u hu => hts u (by simp [hu]))]
          simp

end TriPlayer

namespace TriPlayer

/-! ### Claim theorems -/

/-- C1: if the k-th of N queued requests fails at transport level (the write
fails or the read returns an empty payload) after k−1 successful exchanges,
then the completion callbacks of requests k..N never fire (exactly the k−1
earlier ones do), the outbound queue is empty afterward, and the error flag
is set. -/
theorem fail_discards_tail (fuel : Nat) (q1 tl : List Entry)
    (or1 or2 : List Exchange) (x : Exchange) (st : SysState)
    (hq : st.writeQueue = q1 ++ tl) (htl : tl ≠ []) (herr : st.error_ = false)
    (hfuel : q1.length < fuel)
    (hgood : List.Forall₂ (fun (en : Entry) (r : Exchange) =>
        r.writeOk = true ∧ r.resp ≠ "" ∧ cbOk en.cb r.resp = true) q1 or1)
    (hfail : x.writeOk = false ∨ x.resp = "") :
    ∃ st1, drainLoop fuel (or1 ++ x :: or2) st [] = .done st1 q1 or2 ∧
      st1.error_ = true ∧ st1.writeQueue = [] := by
  have h := drain_fail_aux q1 or1 hgood fuel st tl [] x or2 hq htl herr hfuel hfail
  simpa using h

/-- Witness for C1: two queued requests, the second one's read times out;
only the first callback fires, the queue ends empty and the error flag set. -/
theorem fail_discards_tail_witness :
    ∃ st1, drainLoop 2 [⟨true, "7"⟩, ⟨true, ""⟩]
        { testState with writeQueue :=
            [⟨⟨.GetSong, []⟩, .getSong⟩, ⟨⟨.Resume, []⟩, .resume⟩] } []
      = .done st1 [⟨⟨.GetSong, []⟩, .getSong⟩] [] ∧
      st1.error_ = true ∧ st1.writeQueue = [] :=
  fail_discards_tail 2 [⟨⟨.GetSong, []⟩, .getSong⟩] [⟨⟨.Resume, []⟩, .resume⟩]
    [⟨true, "7"⟩] [] ⟨true, ""⟩
    { testState with writeQueue :=
        [⟨⟨.GetSong, []⟩, .getSong⟩, ⟨⟨.Resume, []⟩, .resume⟩] }
    (by decide) (by decide) (by decide) (by decide) (by decide) (by decide)

/-- C2: a drain that completes with the error flag still clear fires the
callbacks of all entries that were queued, first and exactly in their
enqueue (FIFO) order; anything fired after them are follow-up requests the
callbacks themselves enqueued. -/
theorem fifo_callbacks (fuel : Nat) (oracle : List Exchange) (st st1 : SysState)
    (fired : List Entry) (rest : List Exchange)
    (h : drainLoop fuel oracle st [] = .done st1 fired rest)
    (hok : st1.error_ = false) :
    ∃ followUps, fired = st.writeQueue ++ followUps := by
  have h2 := drain_fifo_aux fuel oracle st [] st1 fired rest h hok
  simpa using h2

/-- Witness for C2: two queued requests, both exchanges succeed, and the
fired sequence is exactly the enqueue order. -/
theorem fifo_callbacks_witness :
    ∃ followUps,
      ([⟨⟨.GetSong, []⟩, .getSong⟩, ⟨⟨.Resume, []⟩, .resume⟩] : List Entry)
        = ({ testState with writeQueue :=
              [⟨⟨.GetSong, []⟩, .getSong⟩, ⟨⟨.Resume, []⟩, .resume⟩] } :
            SysState).writeQueue ++ followUps :=
  fifo_callbacks 3 [⟨true, "3"⟩, ⟨true, "4"⟩]
    { testState with writeQueue :=
        [⟨⟨.GetSong, []⟩, .getSong⟩, ⟨⟨.Resume, []⟩, .resume⟩] }
    { testState with currentSong_ := 4 }
    [⟨⟨.GetSong, []⟩, .getSong⟩, ⟨⟨.Resume, []⟩, .resume⟩] []
    (by decide) (by decide)

/-- C3: a version handshake that answers with a different version (or with
an empty payload) leaves the error flag set; while it is set, a processing
iteration only sleeps (no exchange is consumed) and every enqueue attempt is
silently dropped, leaving the state unchanged. -/
theorem handshake_gate (st : SysState) (v : String) (fuel : Nat)
    (oracle : List Exchange) (due : Bool) (fr : Frame) (c : Cb)
    (hv : v = "" ∨ ∃ n, cppStoi v = some n ∧ n ≠ Protocol.Version) :
    reconnect ⟨v⟩ st = .ok { st with error_ := true } ∧
    processIter fuel oracle due { st with error_ := true }
      = .slept { st with error_ := true } ∧
    addToWriteQueue { st with error_ := true } fr c = { st with error_ := true } := by
  refine ⟨?_, by simp [processIter], by simp [addToWriteQueue]⟩
  rcases hv with hv | ⟨n, hn, hne⟩
  · subst hv
    rfl
  · have hvlen : v.length > 0 := by
      by_contra hc
      have h0 : v.length = 0 := by omega
      rw [string_len_zero] at h0
      subst h0
      rw [show cppStoi "" = none from rfl] at hn
      exact Option.noConfusion hn
    unfold reconnect
    rw [if_pos hvlen, hn]
    simp only []
    rw [if_pos hne]

/-- Witness for C3: the server reports version 2 against compiled version 1. -/
theorem handshake_gate_witness :
    reconnect ⟨"2"⟩ testState = .ok { testState with error_ := true } ∧
    processIter 1 [] false { testState with error_ := true }
      = .slept { testState with error_ := true } ∧
    addToWriteQueue { testState with error_ := true } ⟨.Reset, []⟩ .waitDone
      = { testState with error_ := true } :=
  handshake_gate testState "2" 1 [] false ⟨.Reset, []⟩ .waitDone
    (Or.inr ⟨2, by decide, by decide⟩)

/-- C4 (code bug): a non-numeric payload where a float is expected makes
`std::stod` throw inside the callback; nothing in the processing loop
catches it, so the drain ends in `thrown` (the fault escapes the loop)
instead of the transport-failure handling the spec requires — though the
cached state is indeed left uncorrupted (the throw precedes every store). -/
theorem malformed_response_uncaught :
    cppStod "abc" = none ∧
    runCb .getVolume "abc" testState = .error () ∧
    drainLoop 2 [⟨true, "abc"⟩]
        { testState with writeQueue := [⟨⟨.GetVolume, []⟩, .getVolume⟩] } []
      = .thrown { testState with writeQueue := [⟨⟨.GetVolume, []⟩, .getVolume⟩] }
          [] :=
  ⟨by decide, rfl, by decide⟩

end TriPlayer

namespace TriPlayer

/-- C5: each poll is covered independently against its own cached value:
whenever a queue-size, queue-index or sub-queue-size poll reports a value
different from the respective cached scalar, that callback enqueues the full
re-fetch of the affected sequence(s) (main queue for size; main queue and
sub-queue for index; sub-queue for sub-queue size) into the state *before*
the cached scalar update is applied, and the re-fetch frames land at the
tail of the outbound queue. -/
theorem refetch_before_scalar_update (st : SysState) (s : String) (tmp : Nat)
    (hp : cppStoul s = some tmp) (herr : st.error_ = false) :
    (st.queueSize_ ≠ tmp →
      runCb .getQueueSize s st
        = .ok { sendGetQueue 0 25000 st with queueSize_ := tmp } ∧
      (sendGetQueue 0 25000 st).writeQueue = st.writeQueue ++ [getQueueEntry]) ∧
    (st.songIdx_ ≠ tmp →
      runCb .getSongIdx s st
        = .ok { sendGetSubQueue 0 5000 (sendGetQueue 0 25000 st) with
            songIdx_ := tmp } ∧
      (sendGetSubQueue 0 5000 (sendGetQueue 0 25000 st)).writeQueue
        = st.writeQueue ++ [getQueueEntry, getSubQueueEntry]) ∧
    (st.subQueueSize_ ≠ tmp →
      runCb .getSubQueueSize s st
        = .ok { sendGetSubQueue 0 5000 st with subQueueSize_ := tmp } ∧
      (sendGetSubQueue 0 5000 st).writeQueue
        = st.writeQueue ++ [getSubQueueEntry]) := by
  have hqw : (sendGetQueue 0 25000 st).writeQueue = st.writeQueue ++ [getQueueEntry] := by
    unfold sendGetQueue addToWriteQueue
    rw [if_neg (by simp [herr])]
    rw [show (⟨⟨.GetQueue, [toString 0, toString 25000]⟩, .getQueue⟩ : Entry)
        = getQueueEntry by decide]
  have hsqw : (sendGetSubQueue 0 5000 st).writeQueue
      = st.writeQueue ++ [getSubQueueEntry] := by
    unfold sendGetSubQueue addToWriteQueue
    rw [if_neg (by simp [herr])]
    rw [show (⟨⟨.GetSubQueue, [toString 0, toString 5000]⟩, .getSubQueue⟩ : Entry)
        = getSubQueueEntry by decide]
  have herr2 : (sendGetQueue 0 25000 st).error_ = false := by
    rw [(sendGetQueue_ext 0 25000 st).2, herr]
  have hpair : (sendGetSubQueue 0 5000 (sendGetQueue 0 25000 st)).writeQueue
      = st.writeQueue ++ [getQueueEntry, getSubQueueEntry] := by
    unfold sendGetSubQueue addToWriteQueue
    rw [if_neg (by simp [herr2]), hqw]
    rw [show (⟨⟨.GetSubQueue, [toString 0, toString 5000]⟩, .getSubQueue⟩ : Entry)
        = getSubQueueEntry by decide]
    simp
  refine ⟨fun h1 => ⟨?_, hqw⟩, fun h2 => ⟨?_, hpair⟩, fun h3 => ⟨?_, hsqw⟩⟩
  · simp only [runCb, hp]
    rw [if_pos h1]
  · simp only [runCb, hp]
    rw [if_pos h2]
  · simp only [runCb, hp]
    rw [if_pos h3]

/-- Witness for C5: each of the three polls reports 1 against its cached 0,
and each antecedent is discharged independently. -/
theorem refetch_before_scalar_update_witness :
    runCb .getQueueSize "1" testState
      = .ok { sendGetQueue 0 25000 testState with queueSize_ := 1 } ∧
    (sendGetQueue 0 25000 testState).writeQueue
      = testState.writeQueue ++ [getQueueEntry] ∧
    runCb .getSongIdx "1" testState
      = .ok { sendGetSubQueue 0 5000 (sendGetQueue 0 25000 testState) with
                songIdx_ := 1 } ∧
    (sendGetSubQueue 0 5000 (sendGetQueue 0 25000 testState)).writeQueue
      = testState.writeQueue ++ [getQueueEntry, getSubQueueEntry] ∧
    runCb .getSubQueueSize "1" testState
      = .ok { sendGetSubQueue 0 5000 testState with subQueueSize_ := 1 } ∧
    (sendGetSubQueue 0 5000 testState).writeQueue
      = testState.writeQueue ++ [getSubQueueEntry] :=
  ⟨((refetch_before_scalar_update testState "1" 1 (by decide) (by decide)).1
      (by decide)).1,
   ((refetch_before_scalar_update testState "1" 1 (by decide) (by decide)).1
      (by decide)).2,
   ((refetch_before_scalar_update testState "1" 1 (by decide) (by decide)).2.1
      (by decide)).1,
   ((refetch_before_scalar_update testState "1" 1 (by decide) (by decide)).2.1
      (by decide)).2,
   ((refetch_before_scalar_update testState "1" 1 (by decide) (by decide)).2.2
      (by decide)).1,
   ((refetch_before_scalar_update testState "1" 1 (by decide) (by decide)).2.2
      (by decide)).2⟩

/-- C6: the get-queue / get-sub-queue callbacks set the dirty flags, the
first accessor read returns `true` and clears the flag, and an immediately
following read returns `false`. -/
theorem dirty_flags_read_once (s t : String) (st st' st2 st2' : SysState)
    (hq : runCb .getQueue s st = .ok st')
    (hsq : runCb .getSubQueue t st2 = .ok st2') :
    st'.queueChanged_ = true ∧
    queueChanged st' = (true, { st' with queueChanged_ := false }) ∧
    queueChanged { st' with queueChanged_ := false }
      = (false, { st' with queueChanged_ := false }) ∧
    st2'.subQueueChanged_ = true ∧
    subQueueChanged st2' = (true, { st2' with subQueueChanged_ := false }) ∧
    subQueueChanged { st2' with subQueueChanged_ := false }
      = (false, { st2' with subQueueChanged_ := false }) := by
  simp only [runCb] at hq hsq
  injection hq with hq
  injection hsq with hsq
  subst hq
  subst hsq
  exact ⟨rfl, rfl, rfl, rfl, rfl, rfl⟩

/-- Witness for C6: a queue refetch with payload `"5"` and a sub-queue
refetch with an empty payload. -/
theorem dirty_flags_read_once_witness :
    ({ testState with queue_ := [5], queueChanged_ := true } : SysState).queueChanged_
        = true ∧
    queueChanged { testState with queue_ := [5], queueChanged_ := true }
      = (true, { { testState with queue_ := [5], queueChanged_ := true } with
            queueChanged_ := false }) ∧
    queueChanged { { testState with queue_ := [5], queueChanged_ := true } with
        queueChanged_ := false }
      = (false, { { testState with queue_ := [5], queueChanged_ := true } with
            queueChanged_ := false }) ∧
    ({ testState with subQueue_ := [], subQueueChanged_ := true } : SysState).subQueueChanged_
        = true ∧
    subQueueChanged { testState with subQueue_ := [], subQueueChanged_ := true }
      = (true, { { testState with subQueue_ := [], subQueueChanged_ := true } with
            subQueueChanged_ := false }) ∧
    subQueueChanged { { testState with subQueue_ := [], subQueueChanged_ := true } with
        subQueueChanged_ := false }
      = (false, { { testState with subQueue_ := [], subQueueChanged_ := true } with
            subQueueChanged_ := false }) :=
  dirty_flags_read_once "5" "" testState
    { testState with queue_ := [5], queueChanged_ := true } testState
    { testState with subQueue_ := [], subQueueChanged_ := true }
    rfl rfl

/-- C7: list-response decoding tolerates an empty payload (the cached
sequence is wholesale-replaced by the empty sequence, no error), and a
delimiter-separated payload of nonempty delimiter-free tokens decodes to the
list of decoded identifiers in order. -/
theorem decode_queue_payload (st : SysState) (toks : List (List Char))
    (hne : toks ≠ [])
    (htok : ∀ t ∈ toks, t ≠ [] ∧ Protocol.Delimiter ∉ t) :
    decodeIDList "" = [] ∧
    runCb .getQueue "" st = .ok { st with queue_ := [], queueChanged_ := true } ∧
    runCb .getSubQueue "" st
      = .ok { st with subQueue_ := [], subQueueChanged_ := true } ∧
    decodeIDList (String.mk (joinDelim Protocol.Delimiter toks))
      = toks.map (fun t => cppStrtol (String.mk t)) := by
  refine ⟨rfl, rfl, rfl, ?_⟩
  unfold decodeIDList strtokAll
  rw [show (String.mk (joinDelim Protocol.Delimiter toks)).data
      = joinDelim Protocol.Delimiter toks from rfl]
  rw [strtok_join Protocol.Delimiter toks hne htok]

/-- Witness for C7: the payload `5<DELIM>9<DELIM>12` decodes to `[5, 9, 12]`
(and the empty payload to the empty queue). -/
theorem decode_queue_payload_witness :
    decodeIDList "" = [] ∧
    runCb .getQueue "" testState
      = .ok { testState with queue_ := [], queueChanged_ := true } ∧
    runCb .getSubQueue "" testState
      = .ok { testState with subQueue_ := [], subQueueChanged_ := true } ∧
    decodeIDList (String.mk (joinDelim Protocol.Delimiter [['5'], ['9'], ['1', '2']]))
      = [['5'], ['9'], ['1', '2']].map (fun t => cppStrtol (String.mk t)) :=
  decode_queue_payload testState [['5'], ['9'], ['1', '2']] (by decide) (by decide)

end TriPlayer

namespace TriPlayer

/-- Enqueueing never touches the dirty flags. -/
theorem addToWriteQueue_flags (st : SysState) (fr : Frame) (f : Cb) :
    (addToWriteQueue st fr f).queueChanged_ = st.queueChanged_ ∧
    (addToWriteQueue st fr f).subQueueChanged_ = st.subQueueChanged_ := by
  unfold addToWriteQueue
  split <;> exact ⟨rfl, rfl⟩

/-- The two initial full-queue fetches only touch the outbound queue. -/
theorem sends_preserve_init (stY : SysState) :
    cacheView (sendGetSubQueue 0 5000 (sendGetQueue 0 25000 stY)) = cacheView stY ∧
    (sendGetSubQueue 0 5000 (sendGetQueue 0 25000 stY)).queueChanged_
      = stY.queueChanged_ ∧
    (sendGetSubQueue 0 5000 (sendGetQueue 0 25000 stY)).subQueueChanged_
      = stY.subQueueChanged_ ∧
    (sendGetSubQueue 0 5000 (sendGetQueue 0 25000 stY)).error_ = stY.error_ := by
  unfold sendGetSubQueue sendGetQueue
  refine ⟨?_, ?_, ?_, ?_⟩
  · rw [addToWriteQueue_cache, addToWriteQueue_cache]
  · rw [(addToWriteQueue_flags _ _ _).1, (addToWriteQueue_flags _ _ _).1]
  · rw [(addToWriteQueue_flags _ _ _).2, (addToWriteQueue_flags _ _ _).2]
  · rw [addToWriteQueue_error, addToWriteQueue_error]

/-- Field values after the constructor's trailing fetches, for a
post-handshake error flag `b`. -/
theorem ctor_post_fields (pre : SysState) (b : Bool) (stF : SysState)
    (hdef : stF = sendGetSubQueue 0 5000
        (sendGetQueue 0 25000 { ctorInit pre with error_ := b })) :
    stF.currentSong_ = -1 ∧ stF.position_ = 0 ∧ stF.volume_ = 100 ∧
    stF.status_ = .Stopped ∧ stF.repeatMode_ = .Off ∧ stF.shuffleMode_ = .Off ∧
    stF.songIdx_ = 0 ∧ stF.queueSize_ = 0 ∧ stF.queueChanged_ = false ∧
    stF.subQueueChanged_ = false ∧ stF.subQueueSize_ = pre.subQueueSize_ ∧
    stF.error_ = b := by
  subst hdef
  obtain ⟨hc, hq, hsq, he⟩ :=
    sends_preserve_init { ctorInit pre with error_ := b }
  exact ⟨congrArg CacheView.currentSong hc, congrArg CacheView.position hc,
    congrArg CacheView.volume hc, congrArg CacheView.status hc,
    congrArg CacheView.repeatMode hc, congrArg CacheView.shuffleMode hc,
    congrArg CacheView.songIdx hc, congrArg CacheView.queueSize hc,
    hq, hsq, congrArg CacheView.subQueueSize hc, he⟩

end TriPlayer

namespace TriPlayer

/-- C8 (amended): `waitSongIdx`'s polling loop returns the `size_t`-max
sentinel when the error flag is observed while waiting and returns the fresh
index once its completion latch flips; `waitReset`'s loop polls only its
completion latch — it never consults the error flag, so it does not return
while the latch stays unset (however long one waits). -/
theorem wait_helpers_amended (f i j : Nat) (done err : Nat → Bool)
    (idxAt : Nat → Nat) (hdone : done j = true) :
    waitResetLoop (fun _ => false) f i = none ∧
    waitSongIdxLoop (fun _ => false) (fun _ => true) idxAt (f + 1) i
      = some sizeTMax ∧
    waitResetLoop done (f + 1) j = some j ∧
    waitSongIdxLoop done err idxAt (f + 1) j = some (idxAt j) := by
  refine ⟨?_, rfl, ?_, ?_⟩
  · induction f generalizing i with
    | zero => rfl
    | succ n ih =>
        rw [waitResetLoop]
        exact ih (i + 1)
  · rw [waitResetLoop, if_pos hdone]
  · rw [waitSongIdxLoop, if_pos hdone]

/-- Witness for C8's amended theorem at concrete latch traces. -/
theorem wait_helpers_amended_witness :
    waitResetLoop (fun _ => false) 3 0 = none ∧
    waitSongIdxLoop (fun _ => false) (fun _ => true) (fun _ => 0) 4 0
      = some sizeTMax ∧
    waitResetLoop (fun _ => true) 4 0 = some 0 ∧
    waitSongIdxLoop (fun _ => true) (fun _ => false) (fun _ => 7) 4 0 = some 7 :=
  wait_helpers_amended 3 0 0 (fun _ => true) (fun _ => false) (fun _ => 7) rfl

/-- Counterexample for C8 as stated: with the completion latch unset and the
error flag set, `waitSongIdx`'s per-poll exit condition fires but
`waitReset`'s does not (its loop never reads the error flag), and its loop
is still polling after any number of iterations. -/
theorem wait_reset_ignores_error_cex :
    waitResetExits false true = false ∧
    waitSongIdxExits false true = true ∧
    waitResetLoop (fun _ => false) 5 0 = none :=
  ⟨rfl, rfl, rfl⟩

/-- C9 (amended): every request builder except `sendSetPosition`, and both
flag accessors, leave the cached playback state untouched at call time (only
their completion callbacks mutate it); `sendSetPosition` additionally writes
the cached position directly on the calling thread before enqueueing. -/
theorem cache_mutated_only_in_callbacks_amended (st : SysState) (v p : Rat)
    (idx pos n a b : Nat) (id : SongID) (q : List SongID)
    (rm : RepeatMode) (sm : ShuffleMode) :
    cacheView (sendResume st) = cacheView st ∧
    cacheView (sendPause st) = cacheView st ∧
    cacheView (sendPrevious st) = cacheView st ∧
    cacheView (sendNext st) = cacheView st ∧
    cacheView (sendGetVolume st) = cacheView st ∧
    cacheView (sendSetVolume v st) = cacheView st ∧
    cacheView (sendSetSongIdx idx st) = cacheView st ∧
    cacheView (sendGetSongIdx st) = cacheView st ∧
    cacheView (sendGetQueueSize st) = cacheView st ∧
    cacheView (sendRemoveFromQueue pos st) = cacheView st ∧
    cacheView (sendGetQueue a b st) = cacheView st ∧
    cacheView (sendSetQueue q st) = cacheView st ∧
    cacheView (sendAddToSubQueue id st) = cacheView st ∧
    cacheView (sendRemoveFromSubQueue pos st) = cacheView st ∧
    cacheView (sendGetSubQueueSize st) = cacheView st ∧
    cacheView (sendGetSubQueue a b st) = cacheView st ∧
    cacheView (sendSkipSubQueueSongs n st) = cacheView st ∧
    cacheView (sendGetRepeat st) = cacheView st ∧
    cacheView (sendSetRepeat rm st) = cacheView st ∧
    cacheView (sendGetShuffle st) = cacheView st ∧
    cacheView (sendSetShuffle sm st) = cacheView st ∧
    cacheView (sendGetSong st) = cacheView st ∧
    cacheView (sendGetStatus st) = cacheView st ∧
    cacheView (sendGetPosition st) = cacheView st ∧
    cacheView (sendSetPosition p st) = { cacheView st with position := p } ∧
    cacheView (queueChanged st).2 = cacheView st ∧
    cacheView (subQueueChanged st).2 = cacheView st := by
  refine ⟨addToWriteQueue_cache st _ _, addToWriteQueue_cache st _ _,
    addToWriteQueue_cache st _ _, addToWriteQueue_cache st _ _,
    addToWriteQueue_cache st _ _, addToWriteQueue_cache st _ _,
    addToWriteQueue_cache st _ _, addToWriteQueue_cache st _ _,
    addToWriteQueue_cache st _ _, addToWriteQueue_cache st _ _,
    addToWriteQueue_cache st _ _, addToWriteQueue_cache st _ _,
    addToWriteQueue_cache st _ _, addToWriteQueue_cache st _ _,
    addToWriteQueue_cache st _ _, addToWriteQueue_cache st _ _,
    addToWriteQueue_cache st _ _, addToWriteQueue_cache st _ _,
    addToWriteQueue_cache st _ _, addToWriteQueue_cache st _ _,
    addToWriteQueue_cache st _ _, addToWriteQueue_cache st _ _,
    addToWriteQueue_cache st _ _, addToWriteQueue_cache st _ _,
    (addToWriteQueue_cache _ _ _).trans rfl, ?_, ?_⟩
  · unfold queueChanged
    split <;> rfl
  · unfold subQueueChanged
    split <;> rfl

/-- Counterexample for C9 as stated: `sendSetPosition` mutates the cached
position at enqueue time, on the calling thread, before any callback runs. -/
theorem set_position_enqueue_mutates_cex :
    cacheView (sendSetPosition 5 testState) ≠ cacheView testState ∧
    (sendSetPosition 5 testState).position_ = 5 ∧
    testState.position_ = 0 :=
  ⟨by decide, by decide, by decide⟩

/-- C10 (amended): after construction every listed field holds its default
(current song −1, position 0, volume 100, status Stopped, repeat Off,
shuffle Off, index 0, cached main-queue size 0, both dirty flags false), the
error flag is clear exactly when the handshake succeeded (nonempty version
reply parsing to the compiled-in version), but the cached sub-queue size is
left unassigned by the constructor body — it keeps whatever indeterminate
value the member had. -/
theorem ctor_defaults_amended (pre : SysState) (hs : Handshake) (st1 : SysState)
    (h : sysmoduleCtor pre hs = .ok st1) :
    st1.currentSong_ = -1 ∧ st1.position_ = 0 ∧ st1.volume_ = 100 ∧
    st1.status_ = .Stopped ∧ st1.repeatMode_ = .Off ∧ st1.shuffleMode_ = .Off ∧
    st1.songIdx_ = 0 ∧ st1.queueSize_ = 0 ∧ st1.queueChanged_ = false ∧
    st1.subQueueChanged_ = false ∧ st1.subQueueSize_ = pre.subQueueSize_ ∧
    (st1.error_ = false ↔
      hs.versionResp ≠ "" ∧ cppStoi hs.versionResp = some Protocol.Version) := by
  unfold sysmoduleCtor reconnect at h
  by_cases hv : hs.versionResp.length > 0
  · rw [if_pos hv] at h
    have hvne : hs.versionResp ≠ "" := by
      intro hc
      rw [hc] at hv
      simp at hv
    cases hsi : cppStoi hs.versionResp with
    | none =>
        rw [hsi] at h
        simp at h
    | some n =>
        rw [hsi] at h
        simp only [] at h
        by_cases hne : n ≠ Protocol.Version
        · rw [if_pos hne] at h
          simp only [] at h
          injection h with h
          obtain ⟨f1, f2, f3, f4, f5, f6, f7, f8, f9, f10, f11, f12⟩ :=
            ctor_post_fields pre true st1 h.symm
          refine ⟨f1, f2, f3, f4, f5, f6, f7, f8, f9, f10, f11, ?_⟩
          rw [f12]
          simp [hsi, hne]
        · rw [if_neg hne] at h
          simp only [] at h
          injection h with h
          obtain ⟨f1, f2, f3, f4, f5, f6, f7, f8, f9, f10, f11, f12⟩ :=
            ctor_post_fields pre false st1 h.symm
          refine ⟨f1, f2, f3, f4, f5, f6, f7, f8, f9, f10, f11, ?_⟩
          rw [f12]
          push_neg at hne
          simp [hsi, hne, hvne]
  · rw [if_neg hv] at h
    have hresp : hs.versionResp = "" := by
      rw [← string_len_zero]
      omega
    simp only [] at h
    injection h with h
    obtain ⟨f1, f2, f3, f4, f5, f6, f7, f8, f9, f10, f11, f12⟩ :=
      ctor_post_fields pre true st1 h.symm
    refine ⟨f1, f2, f3, f4, f5, f6, f7, f8, f9, f10, f11, ?_⟩
    rw [f12]
    simp [hresp]

/-- Witness for C10's amended theorem: a successful handshake (server
answers `1`) over an indeterminate prior sub-queue size of 7. -/
theorem ctor_defaults_amended_witness :
    ({ testState with
        subQueueSize_ := 7,
        writeQueue := [getQueueEntry, getSubQueueEntry] } : SysState).currentSong_
        = -1 ∧
    ({ testState with
        subQueueSize_ := 7,
        writeQueue := [getQueueEntry, getSubQueueEntry] } : SysState).position_ = 0 ∧
    ({ testState with
        subQueueSize_ := 7,
        writeQueue := [getQueueEntry, getSubQueueEntry] } : SysState).volume_ = 100 ∧
    ({ testState with
        subQueueSize_ := 7,
        writeQueue := [getQueueEntry, getSubQueueEntry] } : SysState).status_
        = .Stopped ∧
    ({ testState with
        subQueueSize_ := 7,
        writeQueue := [getQueueEntry, getSubQueueEntry] } : SysState).repeatMode_
        = .Off ∧
    ({ testState with
        subQueueSize_ := 7,
        writeQueue := [getQueueEntry, getSubQueueEntry] } : SysState).shuffleMode_
        = .Off ∧
    ({ testState with
        subQueueSize_ := 7,
        writeQueue := [getQueueEntry, getSubQueueEntry] } : SysState).songIdx_ = 0 ∧
    ({ testState with
        subQueueSize_ := 7,
        writeQueue := [getQueueEntry, getSubQueueEntry] } : SysState).queueSize_
        = 0 ∧
    ({ testState with
        subQueueSize_ := 7,
        writeQueue := [getQueueEntry, getSubQueueEntry] } : SysState).queueChanged_
        = false ∧
    ({ testState with
        subQueueSize_ := 7,
        writeQueue := [getQueueEntry, getSubQueueEntry] } : SysState).subQueueChanged_
        = false ∧
    ({ testState with
        subQueueSize_ := 7,
        writeQueue := [getQueueEntry, getSubQueueEntry] } : SysState).subQueueSize_
        = ({ testState with subQueueSize_ := 7 } : SysState).subQueueSize_ ∧
    (({ testState with
        subQueueSize_ := 7,
        writeQueue := [getQueueEntry, getSubQueueEntry] } : SysState).error_ = false ↔
      (Handshake.mk "1").versionResp ≠ "" ∧
        cppStoi (Handshake.mk "1").versionResp = some Protocol.Version) :=
  ctor_defaults_amended { testState with subQueueSize_ := 7 } ⟨"1"⟩
    { testState with
        subQueueSize_ := 7,
        writeQueue := [getQueueEntry, getSubQueueEntry] }
    rfl

/-- Counterexample for C10 as stated: with a failed handshake and a prior
indeterminate sub-queue size of 7, the constructed state still reports a
cached sub-queue size of 7, not 0 — the constructor body never assigns
`subQueueSize_`. -/
theorem ctor_leaves_subqueue_size_cex :
    sysmoduleCtor { testState with subQueueSize_ := 7 } ⟨""⟩
      = .ok { testState with error_ := true, subQueueSize_ := 7 } ∧
    ({ testState with error_ := true, subQueueSize_ := 7 } : SysState).subQueueSize_
      ≠ 0 :=
  ⟨rfl, by decide⟩

end TriPlayer
